import Mathlib

/-!
Verification of the ViewPods core: the Apple Continuity proximity-pairing
packet parser (packet_parser.py) and the device state manager
(state_manager.py), shallowly embedded in Lean 4.

Bytes are modelled as natural numbers (each in 0..255 in real buffers),
byte buffers as lists of naturals, Python `Optional` as `Option`, and
`time.monotonic()` timestamps as rationals. A Python function that can
raise an exception caught by its caller is modelled as returning `none`
in the exceptional case.
-/

namespace ViewPods

/-! ## Data model: packet_parser.py -/

/-- Apple company identifier constant from packet_parser.py. -/
def APPLE_COMPANY_ID : Nat := 0x004C

/-- Proximity pairing TLV message type from packet_parser.py. -/
def PROXIMITY_PAIRING_TYPE : Nat := 0x07

/-- Battery nibble marker for unavailable, from packet_parser.py. -/
def BATTERY_UNAVAILABLE : Nat := 0xF

/-- The merged model table KNOWN_APPLE_MODELS from packet_parser.py
(the `AIRPODS_PRO_2_MODELS` entries followed by the extended entries),
as an association list in insertion order. All keys are distinct, so
association-list lookup agrees with Python dict lookup. -/
def KNOWN_APPLE_MODELS : List (Nat × String) :=
  [ (0x1420, "AirPods Pro 2"),
    (0x1520, "AirPods Pro 2 (USB-C)"),
    (0x2002, "AirPods"),
    (0x200F, "AirPods 2"),
    (0x200E, "AirPods Pro"),
    (0x2014, "AirPods 3"),
    (0x2024, "AirPods Pro 2"),
    (0x2013, "AirPods Max"),
    (0x6465, "AirPods Pro"),
    (0x4abf, "AirPods Pro") ]

/-- The frozen dataclass AirPodsData from packet_parser.py. -/
structure AirPodsData where
  left_battery : Option Nat := none
  right_battery : Option Nat := none
  case_battery : Option Nat := none
  left_charging : Bool := false
  right_charging : Bool := false
  case_charging : Bool := false
  model : String := "Unknown AirPods"
  raw_status : Nat := 0
deriving DecidableEq

/-- Function nibble_to_percent from packet_parser.py: battery nibble to
percentage, `none` when unavailable. -/
def nibble_to_percent (nibble : Nat) : Option Nat :=
  if nibble = BATTERY_UNAVAILABLE ∨ nibble > 10 then none
  else some (nibble * 10)

/-- The loop body of find_proximity_pairing_offset from packet_parser.py.
The Python loop `while i < len(data) - 1` is modelled with explicit fuel;
each iteration either returns or strictly increases `i` by at least 2
(the advance is `2 + msg_len` when `msg_len > 0` and, because of the
Python conditional-expression precedence in `i += 2 + msg_len if
msg_len > 0 else i + 2`, the advance is `i + 2` when `msg_len = 0`), so
fuel `data.length + 1` is never exhausted. -/
def find_offset_go (data : List Nat) : Nat → Nat → Option Nat
  | _, 0 => none
  | i, fuel + 1 =>
    if i + 1 < data.length then
      let msg_type := data.getD i 0
      let msg_len := data.getD (i + 1) 0
      if msg_type = PROXIMITY_PAIRING_TYPE ∧ (msg_len = 0x19 ∨ msg_len = 0x11) ∧
          i + 2 + msg_len ≤ data.length then
        some i
      else
        find_offset_go data (if msg_len > 0 then i + (2 + msg_len) else i + (i + 2)) fuel
    else none

/-- Function find_proximity_pairing_offset from packet_parser.py. -/
def find_proximity_pairing_offset (data : List Nat) : Option Nat :=
  find_offset_go data 0 (data.length + 1)

/-- Function decode_proximity_pairing from packet_parser.py. Python raises
IndexError on an out-of-range access, which the sole caller catches and
turns into `None`; here an out-of-range access yields `none` directly.
The source reads indices `base + 1` through `base + 5` with
`base = offset + 2`; those indices are inlined here as `offset + 3`
through `offset + 7`. -/
def decode_proximity_pairing (data : List Nat) (offset : Nat) : Option AirPodsData :=
  match data.get? (offset + 3), data.get? (offset + 4), data.get? (offset + 5),
        data.get? (offset + 6), data.get? (offset + 7) with
  | some b1, some b2, some status_byte, some pods_byte, some flags_case_byte =>
    let model_id := (b1 <<< 8) ||| b2
    let model_name :=
      match KNOWN_APPLE_MODELS.lookup model_id with
      | some name => name
      | none => "AirPods"
    let flipped : Bool := (status_byte &&& 0x02) != 0
    let left_nib0 := (pods_byte >>> 4) &&& 0x0F
    let right_nib0 := pods_byte &&& 0x0F
    let left_nibble := if flipped then right_nib0 else left_nib0
    let right_nibble := if flipped then left_nib0 else right_nib0
    let case_nibble := flags_case_byte &&& 0x0F
    let charge_flags := (flags_case_byte >>> 4) &&& 0x0F
    let left_charging : Bool :=
      if flipped then (charge_flags &&& 0x01) != 0 else (charge_flags &&& 0x02) != 0
    let right_charging : Bool :=
      if flipped then (charge_flags &&& 0x02) != 0 else (charge_flags &&& 0x01) != 0
    let case_charging : Bool := (charge_flags &&& 0x04) != 0
    some { left_battery := nibble_to_percent left_nibble
           right_battery := nibble_to_percent right_nibble
           case_battery := nibble_to_percent case_nibble
           left_charging := left_charging
           right_charging := right_charging
           case_charging := case_charging
           model := model_name
           raw_status := status_byte }
  | _, _, _, _, _ => none

/-- Function parse_manufacturer_data from packet_parser.py. -/
def parse_manufacturer_data (company_id : Nat) (data : List Nat) : Option AirPodsData :=
  if company_id ≠ APPLE_COMPANY_ID then none
  else if data.length < 15 then none
  else
    match find_proximity_pairing_offset data with
    | none => none
    | some offset => decode_proximity_pairing data offset

/-- Modelled from the spec (section 4.1): the TLV walk as the specification
words it, identical to find_offset_go except that a zero-length record
advances the cursor by exactly 2. Used to compare the source scanner with
the specified walk. -/
def find_offset_spec_go (data : List Nat) : Nat → Nat → Option Nat
  | _, 0 => none
  | i, fuel + 1 =>
    if i + 1 < data.length then
      let msg_type := data.getD i 0
      let msg_len := data.getD (i + 1) 0
      if msg_type = PROXIMITY_PAIRING_TYPE ∧ (msg_len = 0x19 ∨ msg_len = 0x11) ∧
          i + 2 + msg_len ≤ data.length then
        some i
      else
        find_offset_spec_go data (if msg_len > 0 then i + (2 + msg_len) else i + 2) fuel
    else none

/-- Modelled from the spec (section 4.1): entry point of the specified walk. -/
def find_offset_spec (data : List Nat) : Option Nat :=
  find_offset_spec_go data 0 (data.length + 1)

/-! ## Reading history and smoother: state_manager.py -/

/-- Number of occurrences of a value in a list (the count a Python
`Counter` assigns to a key). -/
def countIn [DecidableEq α] (xs : List α) (v : α) : Nat :=
  (xs.filter (fun x => x = v)).length

/-- Accumulator pass that keeps the first occurrence of each value in
order, mirroring the insertion order of `Counter` keys. -/
def dedupAux [DecidableEq α] (acc : List α) : List α → List α
  | [] => acc
  | x :: t => dedupAux (if x ∈ acc then acc else acc ++ [x]) t

/-- Distinct values of a list in first-occurrence order: the key order of
a Python `Counter` built from the list. -/
def dedupFirst [DecidableEq α] (xs : List α) : List α := dedupAux [] xs

/-- Python `Counter(values).most_common(1)[0][0]`: among the distinct
values (in first-insertion order) pick the one with the maximal count,
replacing the running best only on a strictly greater count, exactly as
`max` over the counter items does. `none` when the list is empty. -/
def most_common [DecidableEq α] (xs : List α) : Option α :=
  match dedupFirst xs with
  | [] => none
  | d :: ds =>
    some (ds.foldl (fun best v => if countIn xs v > countIn xs best then v else best) d)

/-- The inner function get_mode of StateManager.compute_smoothed_data for
an Optional[int] field: the mode of the non-null history values, or the
latest reading's field when there is none. -/
def get_mode_opt (proj : AirPodsData → Option Nat)
    (history : List AirPodsData) (latest : AirPodsData) : Option Nat :=
  match most_common (history.filterMap proj) with
  | none => proj latest
  | some v => some v

/-- The inner function get_mode of StateManager.compute_smoothed_data for
a boolean field (booleans are never null in the history). -/
def get_mode_bool (proj : AirPodsData → Bool)
    (history : List AirPodsData) (latest : AirPodsData) : Bool :=
  match most_common (history.map proj) with
  | none => proj latest
  | some v => v

/-- StateManager.compute_smoothed_data from state_manager.py: per-field
mode filter over the history, with model and raw status taken from the
latest reading. -/
def compute_smoothed_data (history : List AirPodsData) (latest : AirPodsData) : AirPodsData :=
  if history = [] then latest
  else
    { left_battery := get_mode_opt AirPodsData.left_battery history latest
      right_battery := get_mode_opt AirPodsData.right_battery history latest
      case_battery := get_mode_opt AirPodsData.case_battery history latest
      left_charging := get_mode_bool AirPodsData.left_charging history latest
      right_charging := get_mode_bool AirPodsData.right_charging history latest
      case_charging := get_mode_bool AirPodsData.case_charging history latest
      model := latest.model
      raw_status := latest.raw_status }

/-- Modelled from the spec (claim wording, section 4.3): the mode with
ties broken toward the value that first reaches the highest count under
insertion order. Scans positions left to right and returns the first
element whose running count at that position equals the maximal final
count. -/
def maxCount [DecidableEq α] (xs : List α) : Nat :=
  (xs.map (countIn xs)).foldr max 0

/-- Modelled from the spec (claim wording, section 4.3): see maxCount. -/
def firstToReachMode [DecidableEq α] (xs : List α) : Option α :=
  (List.range xs.length).findSome? (fun j =>
    match xs.get? j with
    | some x => if countIn (xs.take (j + 1)) x = maxCount xs then some x else none
    | none => none)

/-! ## Device state machine: state_manager.py

Timestamps are modelled as rationals. Subtraction of timestamps is
written with `qsub`, a normalized-form subtraction on `ℚ` that the
kernel can evaluate on closed values; `qsub_eq_sub` shows it is ordinary
rational subtraction. -/

/-- Rational subtraction in normalized form, kernel-computable. -/
def qsub (a b : ℚ) : ℚ := mkRat (a.num * b.den - b.num * a.den) (a.den * b.den)

/-- The function qsub is ordinary subtraction on the rationals. -/
theorem qsub_eq_sub (a b : ℚ) : qsub a b = a - b := by
  have ha : (a.den : ℚ) ≠ 0 := Nat.cast_ne_zero.mpr a.den_nz
  have hb : (b.den : ℚ) ≠ 0 := Nat.cast_ne_zero.mpr b.den_nz
  unfold qsub
  rw [Rat.mkRat_eq_div]
  conv_rhs => rw [← Rat.num_div_den a, ← Rat.num_div_den b]
  rw [div_sub_div _ _ ha hb]
  push_cast
  ring_nf

/-- Seconds of BLE silence before the device counts as disconnected. -/
def DISCONNECT_TIMEOUT : ℚ := 30

/-- Minimum seconds between state-change callbacks. -/
def DEBOUNCE_INTERVAL : ℚ := mkRat 1 2

/-- Enum ConnectionState from state_manager.py. -/
inductive ConnectionState where
  | DISCONNECTED
  | CONNECTED
deriving DecidableEq

/-- Dataclass DeviceState from state_manager.py. -/
structure DeviceState where
  connection : ConnectionState := ConnectionState.DISCONNECTED
  airpods : Option AirPodsData := none
  last_seen : ℚ := 0
  bluetooth_available : Bool := true
  classic_device_name : Option String := none
deriving DecidableEq

/-- Helper for DeviceState.is_low_battery: one battery level is present
and at or below 20 percent. -/
def lowLevel : Option Nat → Bool
  | none => false
  | some v => decide (v ≤ 20)

/-- Property DeviceState.is_low_battery from state_manager.py. -/
def DeviceState.is_low_battery (s : DeviceState) : Bool :=
  match s.airpods with
  | none => false
  | some a => lowLevel a.left_battery || lowLevel a.right_battery || lowLevel a.case_battery

/-- The StateManager fields the core logic touches: the current snapshot,
the bounded history deque, and the debounce timestamp. Observer dispatch
is modelled by the list of dispatched snapshots together with their
dispatch times (each dispatch delivers the snapshot to every registered
observer). -/
structure ManagerState where
  state : DeviceState := {}
  history : List AirPodsData := []
  last_notify_time : ℚ := 0
  notifications : List (ℚ × DeviceState) := []
deriving DecidableEq

/-- StateManager initial contents from StateManager.init. -/
def initManager : ManagerState := {}

/-- Appending to a deque with maxlen 5: the oldest entries are evicted
past capacity. -/
def dequeAppend (h : List AirPodsData) (d : AirPodsData) : List AirPodsData :=
  let h2 := h ++ [d]
  if h2.length > 5 then h2.drop (h2.length - 5) else h2

/-- StateManager.notify_observers from state_manager.py, at an explicit
call time `now`: inside the debounce window nothing happens, otherwise
the debounce timestamp advances and the current snapshot is dispatched. -/
def notify_observers (now : ℚ) (m : ManagerState) : ManagerState :=
  if qsub now m.last_notify_time < DEBOUNCE_INTERVAL then m
  else { m with last_notify_time := now,
                notifications := m.notifications ++ [(now, m.state)] }

/-- StateManager.update_from_airpods from state_manager.py. -/
def update_from_airpods (now : ℚ) (d : AirPodsData) (m : ManagerState) : ManagerState :=
  let hist := dequeAppend m.history d
  let m2 : ManagerState :=
    { m with
      history := hist
      state :=
        { connection := ConnectionState.CONNECTED
          airpods := some (compute_smoothed_data hist d)
          last_seen := now
          bluetooth_available := true
          classic_device_name := m.state.classic_device_name } }
  notify_observers now m2

/-- StateManager.mark_disconnected from state_manager.py. -/
def mark_disconnected (now : ℚ) (m : ManagerState) : ManagerState :=
  if m.state.connection = ConnectionState.DISCONNECTED ∧ m.state.classic_device_name = none then m
  else
    notify_observers now
      { m with
        state :=
          { connection := ConnectionState.DISCONNECTED
            airpods := none
            last_seen := m.state.last_seen
            bluetooth_available := m.state.bluetooth_available
            classic_device_name := none } }

/-- StateManager.mark_connected_classic from state_manager.py. -/
def mark_connected_classic (now : ℚ) (device_name : String) (m : ManagerState) : ManagerState :=
  if m.state.connection = ConnectionState.CONNECTED ∧ m.state.airpods ≠ none then m
  else
    notify_observers now
      { m with
        state :=
          { connection := ConnectionState.CONNECTED
            airpods := m.state.airpods
            last_seen := now
            bluetooth_available := true
            classic_device_name := some device_name } }

/-- StateManager.mark_classic_disconnected from state_manager.py. In the
fresh-BLE branch the Python `return` sits inside the lock block, so the
method exits without reaching the notify call at the bottom. -/
def mark_classic_disconnected (now : ℚ) (m : ManagerState) : ManagerState :=
  if m.state.airpods ≠ none ∧ m.state.last_seen > 0 ∧
      qsub now m.state.last_seen < DISCONNECT_TIMEOUT then
    { m with state := { m.state with classic_device_name := none } }
  else
    notify_observers now
      { m with
        state :=
          { connection := ConnectionState.DISCONNECTED
            airpods := none
            last_seen := m.state.last_seen
            bluetooth_available := m.state.bluetooth_available
            classic_device_name := none } }

/-- StateManager.set_bluetooth_unavailable from state_manager.py. -/
def set_bluetooth_unavailable (now : ℚ) (m : ManagerState) : ManagerState :=
  notify_observers now
    { m with
      state :=
        { connection := ConnectionState.DISCONNECTED
          airpods := none
          last_seen := 0
          bluetooth_available := false
          classic_device_name := none } }

/-- StateManager.set_bluetooth_available from state_manager.py. The source
builds the new DeviceState passing connection, airpods, last_seen and
bluetooth_available only, so classic_device_name falls back to the
dataclass default `None`; no observer notification is made. -/
def set_bluetooth_available (m : ManagerState) : ManagerState :=
  { m with
    state :=
      { connection := m.state.connection
        airpods := m.state.airpods
        last_seen := m.state.last_seen
        bluetooth_available := true
        classic_device_name := none } }

/-- The event alphabet of the state manager: one constructor per public
mutating operation. -/
inductive Event where
  | updateFromAirpods (d : AirPodsData)
  | markDisconnected
  | markConnectedClassic (device_name : String)
  | markClassicDisconnected
  | setBluetoothUnavailable
  | setBluetoothAvailable
deriving DecidableEq

/-- One state-manager operation applied at time `now`. -/
def step (e : Event) (now : ℚ) (m : ManagerState) : ManagerState :=
  match e with
  | Event.updateFromAirpods d => update_from_airpods now d m
  | Event.markDisconnected => mark_disconnected now m
  | Event.markConnectedClassic device_name => mark_connected_classic now device_name m
  | Event.markClassicDisconnected => mark_classic_disconnected now m
  | Event.setBluetoothUnavailable => set_bluetooth_unavailable now m
  | Event.setBluetoothAvailable => set_bluetooth_available m

/-- Run a timestamped event trace from a manager state. -/
def runTrace (tr : List (ℚ × Event)) (m : ManagerState) : ManagerState :=
  tr.foldl (fun acc te => step te.2 te.1 acc) m

/-! ## Concrete inputs used in evaluations -/

/-- A reading holding only a left battery value, for smoother experiments. -/
def sampleReading (v : Nat) : AirPodsData := { left_battery := some v }

/-- Buffer exhibiting the zero-length TLV advance of the scanner: a TLV
of type 0x01 and length 1 at offset 0, a TLV of type 0x00 and length 0
at offset 3, and a valid proximity pairing record (type 0x07, length
0x19 = 25) at offset 5 with its 25 content bytes, 32 bytes in all. -/
def zeroLenBuf : List Nat :=
  [0x01, 0x01, 0x00, 0x00, 0x00, 0x07, 0x19] ++ List.replicate 25 0

/-! ## Theorems -/

/-- C5: for every nibble value, 0 through 10 map to percent in steps of
ten, and 0xF or anything above 10 maps to absent. -/
theorem c5_nibble_to_percent (n : Nat) :
    nibble_to_percent n = if n ≤ 10 then some (n * 10) else none := by
  by_cases hn : n ≤ 10
  · have hcond : ¬(n = BATTERY_UNAVAILABLE ∨ n > 10) := by
      unfold BATTERY_UNAVAILABLE; omega
    rw [nibble_to_percent, if_neg hcond, if_pos hn]
  · have hcond : n = BATTERY_UNAVAILABLE ∨ n > 10 := Or.inr (by omega)
    rw [nibble_to_percent, if_pos hcond, if_neg hn]

/-- Helper: characterization of the low-battery check on one level. -/
theorem lowLevel_eq_true (o : Option Nat) :
    lowLevel o = true ↔ ∃ v, o = some v ∧ v ≤ 20 := by
  cases o <;> simp [lowLevel]

/-- C10: is_low_battery holds exactly when a reading is present and one
of its available battery levels is at most 20 percent. -/
theorem c10_is_low_battery (s : DeviceState) :
    s.is_low_battery = true ↔
      ∃ a, s.airpods = some a ∧
        ((∃ v, a.left_battery = some v ∧ v ≤ 20) ∨
         (∃ v, a.right_battery = some v ∧ v ≤ 20) ∨
         (∃ v, a.case_battery = some v ∧ v ≤ 20)) := by
  cases h : s.airpods with
  | none => simp [DeviceState.is_low_battery, h]
  | some a =>
    simp [DeviceState.is_low_battery, h, Bool.or_eq_true, lowLevel_eq_true]
    exact or_assoc

/-- C6: a structurally valid record whose 16-bit big-endian model id is
not in the static table still decodes, with the generic model label. -/
theorem c6_unknown_model_decodes (data : List Nat) (offset b1 b2 : Nat)
    (h1 : data.get? (offset + 3) = some b1)
    (h2 : data.get? (offset + 4) = some b2)
    (hlen : offset + 7 < data.length)
    (hm : KNOWN_APPLE_MODELS.lookup ((b1 <<< 8) ||| b2) = none) :
    ∃ r, decode_proximity_pairing data offset = some r ∧ r.model = "AirPods" := by
  obtain ⟨s, hs⟩ : ∃ s, data.get? (offset + 5) = some s :=
    ⟨_, List.get?_eq_get (by omega)⟩
  obtain ⟨p, hp⟩ : ∃ p, data.get? (offset + 6) = some p :=
    ⟨_, List.get?_eq_get (by omega)⟩
  obtain ⟨fc, hfc⟩ : ∃ fc, data.get? (offset + 7) = some fc :=
    ⟨_, List.get?_eq_get (by omega)⟩
  simp only [decode_proximity_pairing, h1, h2, hs, hp, hfc]
  refine ⟨_, rfl, ?_⟩
  simp [hm]

/-- C6 witness: the theorem applied to an 8-byte buffer whose model id
0xFFFF is not in the table. -/
theorem c6_unknown_model_decodes_witness :
    ∃ r, decode_proximity_pairing [0x07, 0x19, 0x01, 0xFF, 0xFF, 0x00, 0xA5, 0x07] 0 = some r ∧
      r.model = "AirPods" :=
  c6_unknown_model_decodes [0x07, 0x19, 0x01, 0xFF, 0xFF, 0x00, 0xA5, 0x07] 0 0xFF 0xFF
    (by decide) (by decide) (by decide) (by decide)

/-- Helper: with enough fuel the scanner result is fuel-independent, so
the fuel bound in find_proximity_pairing_offset models a terminating
walk, not a truncation: the cursor gains at least 2 per iteration. -/
theorem find_offset_go_fuel_stable (data : List Nat) :
    ∀ (fuel i : Nat), data.length ≤ i + fuel →
      find_offset_go data i fuel = find_offset_go data i (fuel + 1) := by
  intro fuel
  induction fuel with
  | zero =>
    intro i hle
    rw [find_offset_go, find_offset_go, if_neg (by omega)]
  | succ fuel ih =>
    intro i hle
    rw [find_offset_go]
    conv_rhs => rw [find_offset_go]
    by_cases hcont : i + 1 < data.length
    · rw [if_pos hcont, if_pos hcont]
      by_cases hhit : data.getD i 0 = PROXIMITY_PAIRING_TYPE ∧
          (data.getD (i + 1) 0 = 0x19 ∨ data.getD (i + 1) 0 = 0x11) ∧
          i + 2 + data.getD (i + 1) 0 ≤ data.length
      · rw [if_pos hhit, if_pos hhit]
      · rw [if_neg hhit, if_neg hhit]
        by_cases hlen : data.getD (i + 1) 0 > 0
        · rw [if_pos hlen]
          exact ih _ (by omega)
        · rw [if_neg hlen]
          exact ih _ (by omega)
    · rw [if_neg hcont, if_neg hcont]

/-- Helper: any fuel beyond the bound used by the scanner entry point
gives the same answer. -/
theorem find_offset_fuel_irrelevant (data : List Nat) :
    ∀ extra : Nat, find_offset_go data 0 (data.length + 1 + extra) =
      find_proximity_pairing_offset data := by
  intro extra
  induction extra with
  | zero => rfl
  | succ extra ih =>
    show find_offset_go data 0 (data.length + 1 + extra + 1) = _
    rw [← find_offset_go_fuel_stable data (data.length + 1 + extra) 0 (by omega)]
    exact ih

/-- C9: the top-level parse is a total function into an option: it
returns none on a wrong company id, on a buffer shorter than 15 bytes
and when the TLV scan finds nothing; the TLV walk terminates (its result
is unchanged by any amount of extra fuel); and the decoder returns none
instead of failing when the fixed field layout runs past the buffer. -/
theorem c9_parse_total_and_safe (company_id : Nat) (data : List Nat) :
    (parse_manufacturer_data company_id data = none ∨
      ∃ r, parse_manufacturer_data company_id data = some r) ∧
    (company_id ≠ APPLE_COMPANY_ID → parse_manufacturer_data company_id data = none) ∧
    (data.length < 15 → parse_manufacturer_data company_id data = none) ∧
    (find_proximity_pairing_offset data = none →
      parse_manufacturer_data company_id data = none) ∧
    (∀ extra, find_offset_go data 0 (data.length + 1 + extra) =
      find_proximity_pairing_offset data) ∧
    (∀ offset, data.length ≤ offset + 7 → decode_proximity_pairing data offset = none) := by
  refine ⟨?_, ?_, ?_, ?_, find_offset_fuel_irrelevant data, ?_⟩
  · cases h : parse_manufacturer_data company_id data with
    | none => exact Or.inl rfl
    | some r => exact Or.inr ⟨r, rfl⟩
  · intro h
    simp [parse_manufacturer_data, h]
  · intro h
    by_cases hc : company_id = APPLE_COMPANY_ID
    · simp [parse_manufacturer_data, hc, h, Nat.not_lt.mpr]
    · simp [parse_manufacturer_data, hc]
  · intro h
    by_cases hc : company_id = APPLE_COMPANY_ID
    · by_cases hl : data.length < 15
      · simp [parse_manufacturer_data, hc, hl]
      · simp [parse_manufacturer_data, hc, hl, h]
    · simp [parse_manufacturer_data, hc]
  · intro offset hoob
    have h7 : data.get? (offset + 7) = none := List.get?_eq_none.mpr (by omega)
    cases h3 : data.get? (offset + 3) <;> cases h4 : data.get? (offset + 4) <;>
      cases h5 : data.get? (offset + 5) <;> cases h6 : data.get? (offset + 6) <;>
        simp only [decode_proximity_pairing, h3, h4, h5, h6, h7]

/-- C9 witness: the theorem applied at a wrong company id with an empty
buffer. -/
theorem c9_parse_total_and_safe_witness :
    parse_manufacturer_data 0x1234 [] = none :=
  (c9_parse_total_and_safe 0x1234 []).2.1 (by decide)

/-- C1: evaluation of the scanner on zeroLenBuf. The source advance on a
zero-length TLV is `i += i + 2` (a conditional-expression precedence
slip), so from offset 3 the scanner jumps to offset 8 and misses the
valid record at offset 5; the walk the specification describes advances
by 2 and returns offset 5. -/
theorem c1_zero_length_walk_eval :
    find_proximity_pairing_offset zeroLenBuf = none ∧
      find_offset_spec zeroLenBuf = some 5 ∧
      parse_manufacturer_data APPLE_COMPANY_ID zeroLenBuf = none := by
  decide

/-- C3: evaluation of the invariant-violating operation sequence: a
classic-only connection followed by set_bluetooth_available yields a
Connected state carrying neither a reading nor a classic name, because
set_bluetooth_available rebuilds the DeviceState without passing
classic_device_name. -/
theorem c3_invariant_violation_eval :
    (mark_connected_classic 1 "AirPods Pro" initManager).state.connection =
        ConnectionState.CONNECTED ∧
    (mark_connected_classic 1 "AirPods Pro" initManager).state.classic_device_name =
        some "AirPods Pro" ∧
    (set_bluetooth_available
        (mark_connected_classic 1 "AirPods Pro" initManager)).state.connection =
        ConnectionState.CONNECTED ∧
    (set_bluetooth_available
        (mark_connected_classic 1 "AirPods Pro" initManager)).state.airpods = none ∧
    (set_bluetooth_available
        (mark_connected_classic 1 "AirPods Pro" initManager)).state.classic_device_name =
        none := by
  decide

/-- Helper: setting bit 0x02 on a byte with that bit clear makes the
masked value 2. -/
theorem or_two_and_two (s : Nat) (h : s &&& 2 = 0) : (s ||| 2) &&& 2 = 2 := by
  rw [Nat.and_distrib_right, h]
  decide

/-- C4: setting the flipped status bit on an otherwise identical buffer
swaps left and right battery and left and right charging, leaves case
battery, case charging and model unchanged, and records the new raw
status byte. -/
theorem c4_flip_bit_swaps (data : List Nat) (offset : Nat) (r : AirPodsData) (s : Nat)
    (hs : data.get? (offset + 5) = some s)
    (hbit : s &&& 0x02 = 0)
    (hdec : decode_proximity_pairing data offset = some r) :
    decode_proximity_pairing (data.set (offset + 5) (s ||| 0x02)) offset =
      some { r with
             left_battery := r.right_battery
             right_battery := r.left_battery
             left_charging := r.right_charging
             right_charging := r.left_charging
             raw_status := s ||| 0x02 } := by
  cases hb1 : data.get? (offset + 3) with
  | none => rw [decode_proximity_pairing, hb1] at hdec; cases hdec
  | some b1 =>
  cases hb2 : data.get? (offset + 4) with
  | none => rw [decode_proximity_pairing, hb1, hb2] at hdec; cases hdec
  | some b2 =>
  cases hb4 : data.get? (offset + 6) with
  | none => rw [decode_proximity_pairing, hb1, hb2, hs, hb4] at hdec; cases hdec
  | some pods =>
  cases hb5 : data.get? (offset + 7) with
  | none => rw [decode_proximity_pairing, hb1, hb2, hs, hb4, hb5] at hdec; cases hdec
  | some fc =>
  rw [decode_proximity_pairing, hb1, hb2, hs, hb4, hb5] at hdec
  injection hdec with hdec
  subst hdec
  have hin : offset + 5 < data.length := by
    by_contra hlt
    rw [List.get?_eq_none.mpr (by omega)] at hs
    cases hs
  have hset3 : (data.set (offset + 5) (s ||| 0x02)).get? (offset + 3) = some b1 := by
    rw [List.get?_set_ne _ data (by omega), hb1]
  have hset4 : (data.set (offset + 5) (s ||| 0x02)).get? (offset + 4) = some b2 := by
    rw [List.get?_set_ne _ data (by omega), hb2]
  have hset5 : (data.set (offset + 5) (s ||| 0x02)).get? (offset + 5) = some (s ||| 0x02) := by
    rw [List.get?_set_eq, hs]
    rfl
  have hset6 : (data.set (offset + 5) (s ||| 0x02)).get? (offset + 6) = some pods := by
    rw [List.get?_set_ne _ data (by omega), hb4]
  have hset7 : (data.set (offset + 5) (s ||| 0x02)).get? (offset + 7) = some fc := by
    rw [List.get?_set_ne _ data (by omega), hb5]
  rw [decode_proximity_pairing, hset3, hset4, hset5, hset6, hset7]
  simp [hbit, or_two_and_two s hbit]

/-- C4 witness: the theorem applied to a concrete AirPods Pro 2 buffer
with status byte 0, left 100 and right 50, left charging only; the
flipped decode has left 50 and right 100, right charging only. -/
theorem c4_flip_bit_swaps_witness :
    decode_proximity_pairing
        (([0x07, 0x19, 0x01, 0x14, 0x20, 0x00, 0xA5, 0x67].set 5 (0 ||| 0x02))) 0 =
      some { left_battery := some 50
             right_battery := some 100
             case_battery := some 70
             left_charging := false
             right_charging := true
             case_charging := true
             model := "AirPods Pro 2"
             raw_status := 0 ||| 0x02 } :=
  c4_flip_bit_swaps [0x07, 0x19, 0x01, 0x14, 0x20, 0x00, 0xA5, 0x67] 0
    { left_battery := some 100
      right_battery := some 50
      case_battery := some 70
      left_charging := true
      right_charging := false
      case_charging := true
      model := "AirPods Pro 2"
      raw_status := 0 } 0 (by decide) (by decide) (by decide)

/-- Helper: observer notification never changes the held device state. -/
theorem notify_observers_state (now : ℚ) (m : ManagerState) :
    (notify_observers now m).state = m.state := by
  unfold notify_observers
  split <;> rfl

/-- Reachability fact used by claim C7: whenever a reading is held, the
last-seen timestamp is positive and the state is Connected. -/
def readingFresh (m : ManagerState) : Prop :=
  m.state.airpods ≠ none →
    0 < m.state.last_seen ∧ m.state.connection = ConnectionState.CONNECTED

/-- Every operation run at a positive time preserves readingFresh. -/
theorem step_readingFresh (e : Event) (now : ℚ) (m : ManagerState)
    (hnow : 0 < now) (h : readingFresh m) : readingFresh (step e now m) := by
  cases e with
  | updateFromAirpods d =>
    intro _
    rw [step, update_from_airpods, notify_observers_state]
    exact ⟨hnow, rfl⟩
  | markDisconnected =>
    rw [step, mark_disconnected]
    split
    · exact h
    · intro hr
      rw [notify_observers_state] at hr
      exact absurd rfl hr
  | markConnectedClassic device_name =>
    rw [step, mark_connected_classic]
    split
    · exact h
    · intro _
      rw [notify_observers_state]
      exact ⟨hnow, rfl⟩
  | markClassicDisconnected =>
    rw [step, mark_classic_disconnected]
    split
    · rename_i hcond
      intro _
      exact ⟨(h hcond.1).1, (h hcond.1).2⟩
    · intro hr
      rw [notify_observers_state] at hr
      exact absurd rfl hr
  | setBluetoothUnavailable =>
    intro hr
    rw [step, set_bluetooth_unavailable, notify_observers_state] at hr
    exact absurd rfl hr
  | setBluetoothAvailable =>
    intro hr
    exact h hr

/-- Along any trace with positive timestamps, a reachable state holding
a reading has a positive last-seen timestamp and is Connected: the side
conditions of the C7 theorem hold in every reachable state. -/
theorem runTrace_readingFresh : ∀ (tr : List (ℚ × Event)) (m : ManagerState),
    (∀ te ∈ tr, 0 < te.1) → readingFresh m → readingFresh (runTrace tr m) := by
  intro tr
  induction tr with
  | nil => intro m _ h; exact h
  | cons te rest ih =>
    intro m hpos h
    exact ih _ (fun u hu => hpos u (List.mem_cons_of_mem te hu))
      (step_readingFresh te.2 te.1 m (hpos te (List.mem_cons_self te rest)) h)

/-- The initial manager state holds no reading. -/
theorem initManager_readingFresh : readingFresh initManager :=
  fun hr => absurd rfl hr

/-- C7: the classic-disconnected event. When a reading is held and the
elapsed time since it was last seen is under the 30 second timeout, only
the classic name is cleared and the connection and reading survive;
otherwise the state becomes fully Disconnected with reading and classic
name cleared. The two side conditions record facts that hold in every
state the manager actually reaches: a held reading has a positive
last-seen timestamp and implies a Connected state. -/
theorem c7_mark_classic_disconnected (m : ManagerState) (now : ℚ)
    (hseen : m.state.airpods ≠ none → 0 < m.state.last_seen)
    (hconn : m.state.airpods ≠ none → m.state.connection = ConnectionState.CONNECTED) :
    (∀ r, m.state.airpods = some r → qsub now m.state.last_seen < DISCONNECT_TIMEOUT →
      (mark_classic_disconnected now m).state =
          { m.state with classic_device_name := none } ∧
        (mark_classic_disconnected now m).state.connection = ConnectionState.CONNECTED ∧
        (mark_classic_disconnected now m).state.airpods = some r) ∧
    ((m.state.airpods = none ∨ DISCONNECT_TIMEOUT ≤ qsub now m.state.last_seen) →
      (mark_classic_disconnected now m).state.connection = ConnectionState.DISCONNECTED ∧
        (mark_classic_disconnected now m).state.airpods = none ∧
        (mark_classic_disconnected now m).state.classic_device_name = none) := by
  constructor
  · intro r hr hfresh
    have hcond : m.state.airpods ≠ none ∧ m.state.last_seen > 0 ∧
        qsub now m.state.last_seen < DISCONNECT_TIMEOUT :=
      ⟨by simp [hr], hseen (by simp [hr]), hfresh⟩
    rw [mark_classic_disconnected, if_pos hcond]
    refine ⟨rfl, ?_, hr⟩
    exact hconn (by simp [hr])
  · intro hstale
    have hcond : ¬(m.state.airpods ≠ none ∧ m.state.last_seen > 0 ∧
        qsub now m.state.last_seen < DISCONNECT_TIMEOUT) := by
      rcases hstale with h | h
      · simp [h]
      · intro hc
        exact absurd h (not_le.mpr hc.2.2)
    rw [mark_classic_disconnected, if_neg hcond, notify_observers_state]
    exact ⟨rfl, rfl, rfl⟩

/-- C7 witness: a Connected state with a reading seen at time 5; the
classic-disconnected event at time 10 keeps the reading and clears only
the classic name. -/
theorem c7_mark_classic_disconnected_witness :
    (mark_classic_disconnected 10
        { state := { connection := ConnectionState.CONNECTED
                     airpods := some (sampleReading 50)
                     last_seen := 5
                     bluetooth_available := true
                     classic_device_name := some "AirPods Pro" } } : ManagerState).state =
      { connection := ConnectionState.CONNECTED
        airpods := some (sampleReading 50)
        last_seen := 5
        bluetooth_available := true
        classic_device_name := none } :=
  ((c7_mark_classic_disconnected
      { state := { connection := ConnectionState.CONNECTED
                   airpods := some (sampleReading 50)
                   last_seen := 5
                   bluetooth_available := true
                   classic_device_name := some "AirPods Pro" } } 10
      (fun _ => by decide) (fun _ => rfl)).1 (sampleReading 50) rfl (by decide)).1

/-! ## Mode smoothing lemmas (claim C2) -/

/-- Running maximum of `f` over a list, from an initial value. -/
def foldMax (f : α → Nat) (l : List α) (i : Nat) : Nat :=
  l.foldl (fun m x => max m (f x)) i

/-- The initial value bounds the running maximum from below. -/
theorem le_foldMax_init (f : α → Nat) (l : List α) : ∀ i : Nat, i ≤ foldMax f l i := by
  induction l with
  | nil => intro i; exact Nat.le_refl i
  | cons x t ih =>
    intro i
    exact Nat.le_trans (Nat.le_max_left i (f x)) (ih (max i (f x)))

/-- Every listed value bounds the running maximum from below. -/
theorem le_foldMax_of_mem (f : α → Nat) (l : List α) :
    ∀ (i : Nat) (x : α), x ∈ l → f x ≤ foldMax f l i := by
  induction l with
  | nil => intro i x hx; cases hx
  | cons y t ih =>
    intro i x hx
    rcases List.mem_cons.mp hx with rfl | hx
    · exact Nat.le_trans (Nat.le_max_right i (f x)) (le_foldMax_init f t (max i (f x)))
    · exact ih (max i (f y)) x hx

/-- Boolean test that the score of an element equals a given value. -/
def scoreIs (f : α → Nat) (K : Nat) (x : α) : Bool := decide (f x = K)

/-- Positional variant of first-search on a cons with a matching head. -/
theorem find?_cons_pos (p : α → Bool) (a : α) (l : List α) (h : p a = true) :
    List.find? p (a :: l) = some a := by
  rw [List.find?_cons, h]

/-- Positional variant of first-search on a cons with a failing head. -/
theorem find?_cons_neg (p : α → Bool) (a : α) (l : List α) (h : p a = false) :
    List.find? p (a :: l) = List.find? p l := by
  rw [List.find?_cons, h]

/-- A left fold that replaces the running best only on a strictly larger
score returns the first element, in list order with the seed in front,
whose score equals the overall running maximum. -/
theorem argmax_eq_find (f : α → Nat) (l : List α) : ∀ b : α,
    some (l.foldl (fun best v => if f v > f best then v else best) b) =
      (b :: l).find? (scoreIs f (foldMax f l (f b))) := by
  induction l with
  | nil =>
    intro b
    rw [List.foldl_nil]
    have hb : scoreIs f (foldMax f [] (f b)) b = true := by
      simp [scoreIs, foldMax]
    rw [find?_cons_pos _ _ _ hb]
  | cons v t ih =>
    intro b
    rw [List.foldl_cons]
    by_cases hvb : f b < f v
    · have hcv : (if f v > f b then v else b) = v := if_pos hvb
      rw [hcv]
      have hK : foldMax f (v :: t) (f b) = foldMax f t (f v) := by
        show foldMax f t (max (f b) (f v)) = foldMax f t (f v)
        rw [Nat.max_eq_right (Nat.le_of_lt hvb)]
      rw [hK]
      have hpb : scoreIs f (foldMax f t (f v)) b = false := by
        simp only [scoreIs, decide_eq_false_iff_not]
        have : f v ≤ foldMax f t (f v) := le_foldMax_init f t (f v)
        omega
      rw [find?_cons_neg _ _ _ hpb]
      exact ih v
    · have hcb : (if f v > f b then v else b) = b := if_neg hvb
      rw [hcb]
      have hK : foldMax f (v :: t) (f b) = foldMax f t (f b) := by
        show foldMax f t (max (f b) (f v)) = foldMax f t (f b)
        rw [Nat.max_eq_left (Nat.not_lt.mp hvb)]
      rw [hK, ih b]
      cases hpb : scoreIs f (foldMax f t (f b)) b with
      | true => rw [find?_cons_pos _ _ _ hpb, find?_cons_pos _ _ _ hpb]
      | false =>
        have hfbK : f b < foldMax f t (f b) := by
          have h1 : f b ≤ foldMax f t (f b) := le_foldMax_init f t (f b)
          simp only [scoreIs, decide_eq_false_iff_not] at hpb
          omega
        have hpv : scoreIs f (foldMax f t (f b)) v = false := by
          simp only [scoreIs, decide_eq_false_iff_not]
          have : f v ≤ f b := Nat.not_lt.mp hvb
          omega
        rw [find?_cons_neg _ _ _ hpb, find?_cons_neg _ _ _ hpb,
          find?_cons_neg _ _ _ hpv]

/-- Dropping the duplicates kept out by the accumulator pass does not
change the result of a first search, because any dropped element has an
equal earlier element inside the accumulator. -/
theorem dedupAux_find? [DecidableEq α] (p : α → Bool) :
    ∀ (t acc : List α), (dedupAux acc t).find? p = (acc ++ t).find? p := by
  intro t
  induction t with
  | nil => intro acc; simp [dedupAux]
  | cons x t ih =>
    intro acc
    by_cases hx : x ∈ acc
    · show (dedupAux (if x ∈ acc then acc else acc ++ [x]) t).find? p = _
      rw [if_pos hx, ih acc]
      rw [List.find?_append, List.find?_append]
      cases hacc : acc.find? p with
      | some v => rfl
      | none =>
        have hpx : ¬(p x = true) := (List.find?_eq_none.mp hacc) x hx
        simp [List.find?_cons_of_neg _ hpx]
    · show (dedupAux (if x ∈ acc then acc else acc ++ [x]) t).find? p = _
      rw [if_neg hx, ih (acc ++ [x]), List.append_assoc]
      rfl

/-- Membership in the accumulator pass. -/
theorem mem_dedupAux [DecidableEq α] :
    ∀ (t acc : List α) (v : α), v ∈ dedupAux acc t ↔ v ∈ acc ∨ v ∈ t := by
  intro t
  induction t with
  | nil => intro acc v; simp [dedupAux]
  | cons x t ih =>
    intro acc v
    show v ∈ dedupAux (if x ∈ acc then acc else acc ++ [x]) t ↔ _
    by_cases hx : x ∈ acc
    · rw [if_pos hx, ih acc]
      constructor
      · rintro (h | h)
        · exact Or.inl h
        · exact Or.inr (List.mem_cons_of_mem x h)
      · rintro (h | h)
        · exact Or.inl h
        · rcases List.mem_cons.mp h with rfl | h
          · exact Or.inl hx
          · exact Or.inr h
    · rw [if_neg hx, ih (acc ++ [x])]
      simp only [List.mem_append, List.mem_singleton, List.mem_cons]
      tauto

/-- A first search returns the match with the least index among all
matches. -/
theorem find?_indexOf_le [DecidableEq α] (p : α → Bool) :
    ∀ (l : List α) (v w : α), l.find? p = some v → w ∈ l → p w = true →
      l.indexOf v ≤ l.indexOf w := by
  intro l
  induction l with
  | nil => intro v w hfind; cases hfind
  | cons x t ih =>
    intro v w hfind hw hpw
    by_cases hx : p x = true
    · rw [List.find?_cons_of_pos _ hx] at hfind
      injection hfind with hfind
      subst hfind
      rw [List.indexOf_cons_self]
      exact Nat.zero_le _
    · rw [List.find?_cons_of_neg _ hx] at hfind
      have hpv : p v = true := List.find?_some hfind
      have hvx : x ≠ v := fun h => hx (h ▸ hpv)
      have hwx : x ≠ w := fun h => hx (h ▸ hpw)
      have hwt : w ∈ t := by
        rcases List.mem_cons.mp hw with rfl | h
        · exact absurd rfl hwx
        · exact h
      rw [List.indexOf_cons_ne t hvx, List.indexOf_cons_ne t hwx]
      exact Nat.succ_le_succ (ih v w hfind hwt hpw)

/-- The mode in the sense of the amended claim: a value of maximal count
whose first occurrence is earliest among the values of maximal count. -/
def isInsertionOrderMode [DecidableEq α] (xs : List α) (v : α) : Prop :=
  v ∈ xs ∧ (∀ w ∈ xs, countIn xs w ≤ countIn xs v) ∧
    (∀ w ∈ xs, countIn xs w = countIn xs v → xs.indexOf v ≤ xs.indexOf w)

/-- The fold used by most_common computes the insertion-order mode. -/
theorem most_common_spec [DecidableEq α] (xs : List α) (hxs : xs ≠ []) :
    ∃ v, most_common xs = some v ∧ isInsertionOrderMode xs v := by
  cases hds : dedupFirst xs with
  | nil =>
    exfalso
    obtain ⟨x, hx⟩ := List.exists_mem_of_ne_nil xs hxs
    have : x ∈ dedupFirst xs := (mem_dedupAux xs [] x).mpr (Or.inr hx)
    rw [hds] at this
    cases this
  | cons d ds =>
    have hfold := argmax_eq_find (fun v => countIn xs v) ds d
    have hmc : most_common xs =
        (d :: ds).find?
          (scoreIs (fun v => countIn xs v) (foldMax (fun v => countIn xs v) ds (countIn xs d))) := by
      rw [most_common, hds]
      exact hfold
    rw [← hds] at hmc
    unfold dedupFirst at hmc
    rw [dedupAux_find?] at hmc
    simp only [List.nil_append] at hmc
    cases hv : xs.find?
        (scoreIs (fun v => countIn xs v) (foldMax (fun v => countIn xs v) ds (countIn xs d))) with
    | none =>
      exfalso
      rw [hv, most_common, hds] at hmc
      simp at hmc
    | some v =>
      rw [hv] at hmc
      refine ⟨v, hmc, List.mem_of_find?_eq_some hv, ?_, ?_⟩
      · intro w hw
        have hvK : countIn xs v = foldMax (fun v => countIn xs v) ds (countIn xs d) := by
          have := List.find?_some hv
          simpa [scoreIs] using this
        rw [hvK]
        have hwds : w ∈ dedupFirst xs := (mem_dedupAux xs [] w).mpr (Or.inr hw)
        rw [hds] at hwds
        rcases List.mem_cons.mp hwds with rfl | hwds
        · exact le_foldMax_init _ ds _
        · exact le_foldMax_of_mem _ ds _ w hwds
      · intro w hw hcnt
        have hvK : countIn xs v = foldMax (fun v => countIn xs v) ds (countIn xs d) := by
          have := List.find?_some hv
          simpa [scoreIs] using this
        refine find?_indexOf_le _ xs v w hv hw ?_
        simp [scoreIs, hcnt, hvK]

/-- The mode of an empty value list is absent. -/
theorem most_common_nil [DecidableEq α] : most_common ([] : List α) = none := rfl

/-- Specification of one smoothed Optional field: with no non-null
samples the latest reading's value passes through, otherwise the result
is the insertion-order mode of the samples. -/
def smoothedFieldOptOK (vs : List Nat) (fallback res : Option Nat) : Prop :=
  (vs = [] → res = fallback) ∧ (vs ≠ [] → ∃ v, res = some v ∧ isInsertionOrderMode vs v)

/-- Specification of one smoothed boolean field. -/
def smoothedFieldBoolOK (vs : List Bool) (res : Bool) : Prop :=
  vs ≠ [] → isInsertionOrderMode vs res

/-- The Optional-field mode helper meets its specification. -/
theorem get_mode_opt_spec (proj : AirPodsData → Option Nat) (history : List AirPodsData)
    (latest : AirPodsData) :
    smoothedFieldOptOK (history.filterMap proj) (proj latest)
      (get_mode_opt proj history latest) := by
  constructor
  · intro h
    simp [get_mode_opt, h, most_common_nil]
  · intro h
    obtain ⟨v, hv, hmode⟩ := most_common_spec _ h
    refine ⟨v, ?_, hmode⟩
    simp [get_mode_opt, hv]

/-- The boolean-field mode helper meets its specification. -/
theorem get_mode_bool_spec (proj : AirPodsData → Bool) (history : List AirPodsData)
    (latest : AirPodsData) :
    smoothedFieldBoolOK (history.map proj) (get_mode_bool proj history latest) := by
  intro h
  obtain ⟨v, hv, hmode⟩ := most_common_spec _ h
  have hres : get_mode_bool proj history latest = v := by
    simp [get_mode_bool, hv]
  rw [hres]
  exact hmode

/-- C2 (amended): on a non-empty history, the smoothed reading computes,
independently for each battery field and each charging flag, the mode of
the non-null values held in the history, with ties broken toward the
value occurring earliest in the buffer's insertion order; a field with
no non-null history value takes the latest raw reading's value; for
left-battery history [50, 50, 60, 50, 70] the smoothed left battery is
50. -/
theorem c2_mode_smoothing_first_occurrence (history : List AirPodsData)
    (latest : AirPodsData) (hne : history ≠ []) :
    smoothedFieldOptOK (history.filterMap AirPodsData.left_battery) latest.left_battery
      (compute_smoothed_data history latest).left_battery ∧
    smoothedFieldOptOK (history.filterMap AirPodsData.right_battery) latest.right_battery
      (compute_smoothed_data history latest).right_battery ∧
    smoothedFieldOptOK (history.filterMap AirPodsData.case_battery) latest.case_battery
      (compute_smoothed_data history latest).case_battery ∧
    smoothedFieldBoolOK (history.map AirPodsData.left_charging)
      (compute_smoothed_data history latest).left_charging ∧
    smoothedFieldBoolOK (history.map AirPodsData.right_charging)
      (compute_smoothed_data history latest).right_charging ∧
    smoothedFieldBoolOK (history.map AirPodsData.case_charging)
      (compute_smoothed_data history latest).case_charging ∧
    (compute_smoothed_data
        [sampleReading 50, sampleReading 50, sampleReading 60, sampleReading 50,
          sampleReading 70] (sampleReading 70)).left_battery = some 50 := by
  refine ⟨?_, ?_, ?_, ?_, ?_, ?_, by decide⟩
  · rw [show (compute_smoothed_data history latest).left_battery =
        get_mode_opt AirPodsData.left_battery history latest from by
      rw [compute_smoothed_data, if_neg hne]]
    exact get_mode_opt_spec _ history latest
  · rw [show (compute_smoothed_data history latest).right_battery =
        get_mode_opt AirPodsData.right_battery history latest from by
      rw [compute_smoothed_data, if_neg hne]]
    exact get_mode_opt_spec _ history latest
  · rw [show (compute_smoothed_data history latest).case_battery =
        get_mode_opt AirPodsData.case_battery history latest from by
      rw [compute_smoothed_data, if_neg hne]]
    exact get_mode_opt_spec _ history latest
  · rw [show (compute_smoothed_data history latest).left_charging =
        get_mode_bool AirPodsData.left_charging history latest from by
      rw [compute_smoothed_data, if_neg hne]]
    exact get_mode_bool_spec _ history latest
  · rw [show (compute_smoothed_data history latest).right_charging =
        get_mode_bool AirPodsData.right_charging history latest from by
      rw [compute_smoothed_data, if_neg hne]]
    exact get_mode_bool_spec _ history latest
  · rw [show (compute_smoothed_data history latest).case_charging =
        get_mode_bool AirPodsData.case_charging history latest from by
      rw [compute_smoothed_data, if_neg hne]]
    exact get_mode_bool_spec _ history latest

/-- C2 witness: the amended theorem applied to the five-sample history
of the specification example. -/
theorem c2_mode_smoothing_first_occurrence_witness :
    (compute_smoothed_data
        [sampleReading 50, sampleReading 50, sampleReading 60, sampleReading 50,
          sampleReading 70] (sampleReading 70)).left_battery = some 50 :=
  (c2_mode_smoothing_first_occurrence
      [sampleReading 50, sampleReading 50, sampleReading 60, sampleReading 50,
        sampleReading 70] (sampleReading 70) (by decide)).2.2.2.2.2.2

/-- C2 counterexample: on left-battery history [60, 50, 50, 60] the code
smooths to 60 (the first-occurring value among the tied counts, as
Counter.most_common does), while the tie rule of the claim, first value
to reach the highest count, selects 50. -/
theorem c2_tie_break_counterexample :
    (compute_smoothed_data
        [sampleReading 60, sampleReading 50, sampleReading 50, sampleReading 60]
        (sampleReading 60)).left_battery = some 60 ∧
    firstToReachMode
        (([sampleReading 60, sampleReading 50, sampleReading 50,
           sampleReading 60]).filterMap AirPodsData.left_battery) = some 50 ∧
    (60 : Nat) ≠ 50 := by
  decide

/-! ## Observer dispatch and debounce (claim C8) -/

/-- Times at which snapshots were dispatched, oldest first. -/
def notifTimes (m : ManagerState) : List ℚ := m.notifications.map Prod.fst

/-- Consecutive dispatch times are at least the debounce interval
apart. -/
def gapsOK : List ℚ → Prop
  | [] => True
  | [_] => True
  | t1 :: t2 :: r => DEBOUNCE_INTERVAL ≤ qsub t2 t1 ∧ gapsOK (t2 :: r)

/-- Debounce invariant: dispatch times are spaced by at least the
debounce interval and all lie at or before the debounce timestamp. -/
def notifyInv (m : ManagerState) : Prop :=
  gapsOK (notifTimes m) ∧ ∀ t ∈ notifTimes m, t ≤ m.last_notify_time

/-- Appending a sufficiently late time preserves the spacing. -/
theorem gapsOK_append : ∀ (l : List ℚ) (now : ℚ), gapsOK l →
    (∀ t ∈ l, DEBOUNCE_INTERVAL ≤ qsub now t) → gapsOK (l ++ [now]) := by
  intro l
  induction l with
  | nil => intro now h1 h2; trivial
  | cons x t ih =>
    intro now h1 h2
    cases t with
    | nil => exact ⟨h2 x (by simp), trivial⟩
    | cons y r =>
      exact ⟨h1.1, ih now h1.2 (fun u hu => h2 u (List.mem_cons_of_mem x hu))⟩

/-- The debounce interval is positive. -/
theorem debounce_pos : (0 : ℚ) < DEBOUNCE_INTERVAL := by decide

/-- Observer notification preserves the debounce invariant. -/
theorem notify_observers_inv (now : ℚ) (m : ManagerState) (h : notifyInv m) :
    notifyInv (notify_observers now m) := by
  unfold notify_observers
  split
  · exact h
  · rename_i hge
    have hout : DEBOUNCE_INTERVAL ≤ qsub now m.last_notify_time := not_lt.mp hge
    rw [qsub_eq_sub] at hout
    constructor
    · show gapsOK (List.map Prod.fst (m.notifications ++ [(now, m.state)]))
      rw [List.map_append]
      refine gapsOK_append _ now h.1 ?_
      intro t ht
      have h1 : t ≤ m.last_notify_time := h.2 t ht
      rw [qsub_eq_sub]
      linarith
    · intro t ht
      show t ≤ now
      have hmem : t ∈ notifTimes m ∨ t = now := by
        simp only [notifTimes, List.map_append] at ht ⊢
        rcases List.mem_append.mp ht with hl | hr
        · exact Or.inl hl
        · simp at hr
          exact Or.inr hr
      have hpos := debounce_pos
      rcases hmem with hl | rfl
      · have := h.2 t hl
        linarith
      · exact le_refl t

/-- Every state-manager operation preserves the debounce invariant. -/
theorem step_inv (e : Event) (now : ℚ) (m : ManagerState) (h : notifyInv m) :
    notifyInv (step e now m) := by
  cases e with
  | updateFromAirpods d => exact notify_observers_inv now _ h
  | markDisconnected =>
    rw [step, mark_disconnected]
    split
    · exact h
    · exact notify_observers_inv now _ h
  | markConnectedClassic device_name =>
    rw [step, mark_connected_classic]
    split
    · exact h
    · exact notify_observers_inv now _ h
  | markClassicDisconnected =>
    rw [step, mark_classic_disconnected]
    split
    · exact h
    · exact notify_observers_inv now _ h
  | setBluetoothUnavailable => exact notify_observers_inv now _ h
  | setBluetoothAvailable => exact h

/-- Invariance of the debounce invariant along any trace. -/
theorem runTrace_inv : ∀ (tr : List (ℚ × Event)) (m : ManagerState),
    notifyInv m → notifyInv (runTrace tr m) := by
  intro tr
  induction tr with
  | nil => intro m h; exact h
  | cons te rest ih => intro m h; exact ih _ (step_inv te.2 te.1 m h)

/-- The fresh manager satisfies the debounce invariant. -/
theorem initManager_inv : notifyInv initManager :=
  ⟨trivial, fun t ht => by cases ht⟩

/-- A mutation inside the debounce window dispatches nothing and leaves
the debounce timestamp unchanged. -/
theorem step_in_window (e : Event) (now : ℚ) (m : ManagerState)
    (h : qsub now m.last_notify_time < DEBOUNCE_INTERVAL) :
    (step e now m).notifications = m.notifications ∧
      (step e now m).last_notify_time = m.last_notify_time := by
  cases e with
  | updateFromAirpods d =>
    rw [step, update_from_airpods, notify_observers, if_pos h]
    exact ⟨rfl, rfl⟩
  | markDisconnected =>
    rw [step, mark_disconnected]
    split
    · exact ⟨rfl, rfl⟩
    · rw [notify_observers, if_pos h]
      exact ⟨rfl, rfl⟩
  | markConnectedClassic device_name =>
    rw [step, mark_connected_classic]
    split
    · exact ⟨rfl, rfl⟩
    · rw [notify_observers, if_pos h]
      exact ⟨rfl, rfl⟩
  | markClassicDisconnected =>
    rw [step, mark_classic_disconnected]
    split
    · exact ⟨rfl, rfl⟩
    · rw [notify_observers, if_pos h]
      exact ⟨rfl, rfl⟩
  | setBluetoothUnavailable =>
    rw [step, set_bluetooth_unavailable, notify_observers, if_pos h]
    exact ⟨rfl, rfl⟩
  | setBluetoothAvailable => exact ⟨rfl, rfl⟩

/-- The held state produced by an operation does not depend on the
debounce timestamp. -/
theorem step_state_ignores_debounce (e : Event) (now t2 : ℚ) (m : ManagerState) :
    (step e now m).state = (step e now { m with last_notify_time := t2 }).state := by
  cases e with
  | updateFromAirpods d =>
    simp only [step, update_from_airpods]
    rw [notify_observers_state, notify_observers_state]
  | markDisconnected =>
    simp only [step, mark_disconnected]
    by_cases hc : m.state.connection = ConnectionState.DISCONNECTED ∧
        m.state.classic_device_name = none
    · rw [if_pos hc, if_pos hc]
    · rw [if_neg hc, if_neg hc, notify_observers_state, notify_observers_state]
  | markConnectedClassic device_name =>
    simp only [step, mark_connected_classic]
    by_cases hc : m.state.connection = ConnectionState.CONNECTED ∧ m.state.airpods ≠ none
    · rw [if_pos hc, if_pos hc]
    · rw [if_neg hc, if_neg hc, notify_observers_state, notify_observers_state]
  | markClassicDisconnected =>
    simp only [step, mark_classic_disconnected]
    by_cases hc : m.state.airpods ≠ none ∧ m.state.last_seen > 0 ∧
        qsub now m.state.last_seen < DISCONNECT_TIMEOUT
    · rw [if_pos hc, if_pos hc]
    · rw [if_neg hc, if_neg hc, notify_observers_state, notify_observers_state]
  | setBluetoothUnavailable =>
    simp only [step, set_bluetooth_unavailable]
    rw [notify_observers_state, notify_observers_state]
  | setBluetoothAvailable => rfl

/-- Whether an operation reaches the notify call in the source: all
mutations do except the adapter-available transition, the no-op early
returns, and the clear-classic-name branch of classic-disconnected. -/
def callsNotify (e : Event) (now : ℚ) (m : ManagerState) : Prop :=
  match e with
  | Event.updateFromAirpods _ => True
  | Event.markDisconnected =>
    ¬(m.state.connection = ConnectionState.DISCONNECTED ∧ m.state.classic_device_name = none)
  | Event.markConnectedClassic _ =>
    ¬(m.state.connection = ConnectionState.CONNECTED ∧ m.state.airpods ≠ none)
  | Event.markClassicDisconnected =>
    ¬(m.state.airpods ≠ none ∧ m.state.last_seen > 0 ∧
      qsub now m.state.last_seen < DISCONNECT_TIMEOUT)
  | Event.setBluetoothUnavailable => True
  | Event.setBluetoothAvailable => False

/-- An operation that reaches the notify call outside the debounce
window dispatches exactly one snapshot, the new held state, and stamps
the debounce clock. -/
theorem step_notifies (e : Event) (now : ℚ) (m : ManagerState)
    (hc : callsNotify e now m) (hout : DEBOUNCE_INTERVAL ≤ qsub now m.last_notify_time) :
    (step e now m).notifications = m.notifications ++ [(now, (step e now m).state)] ∧
      (step e now m).last_notify_time = now := by
  have hnl : ¬(qsub now m.last_notify_time < DEBOUNCE_INTERVAL) := not_lt.mpr hout
  cases e with
  | updateFromAirpods d =>
    rw [step, update_from_airpods, notify_observers, if_neg hnl]
    exact ⟨rfl, rfl⟩
  | markDisconnected =>
    rw [step, mark_disconnected, if_neg hc, notify_observers, if_neg hnl]
    exact ⟨rfl, rfl⟩
  | markConnectedClassic device_name =>
    rw [step, mark_connected_classic, if_neg hc, notify_observers, if_neg hnl]
    exact ⟨rfl, rfl⟩
  | markClassicDisconnected =>
    rw [step, mark_classic_disconnected, if_neg hc, notify_observers, if_neg hnl]
    exact ⟨rfl, rfl⟩
  | setBluetoothUnavailable =>
    rw [step, set_bluetooth_unavailable, notify_observers, if_neg hnl]
    exact ⟨rfl, rfl⟩
  | setBluetoothAvailable => exact hc.elim

/-- Concrete reading used in the observer-dispatch evaluations, labelled
so bursts are distinguishable. -/
def readingA : AirPodsData := { left_battery := some 50, model := "A" }

/-- Second distinguishable concrete reading. -/
def readingB : AirPodsData := { left_battery := some 50, model := "B" }

/-- C8 (amended): observer dispatch under debounce. Every user-visible
mutation that reaches the notify call (all operations except
adapter-available, the no-op early returns, and the clear-classic-name
branch of classic-disconnected) dispatches the new held state when the
debounce window has passed; consecutive dispatch times along any trace
are at least 500 ms apart; a mutation inside the debounce window
dispatches nothing yet updates the held state exactly as it would with
any other debounce timestamp; and of two notifying mutations within
500 ms of each other, the first outside the previous window, exactly
one snapshot is dispatched, carrying the state as of the first
mutation. -/
theorem c8_debounced_dispatch :
    (∀ tr : List (ℚ × Event), gapsOK (notifTimes (runTrace tr initManager))) ∧
    (∀ (e : Event) (now : ℚ) (m : ManagerState),
      qsub now m.last_notify_time < DEBOUNCE_INTERVAL →
        (step e now m).notifications = m.notifications) ∧
    (∀ (e : Event) (now t2 : ℚ) (m : ManagerState),
      (step e now m).state = (step e now { m with last_notify_time := t2 }).state) ∧
    (∀ (e : Event) (now : ℚ) (m : ManagerState), callsNotify e now m →
      DEBOUNCE_INTERVAL ≤ qsub now m.last_notify_time →
        (step e now m).notifications = m.notifications ++ [(now, (step e now m).state)]) ∧
    (∀ (m : ManagerState) (e1 e2 : Event) (t1 t2 : ℚ), callsNotify e1 t1 m →
      DEBOUNCE_INTERVAL ≤ qsub t1 m.last_notify_time → qsub t2 t1 < DEBOUNCE_INTERVAL →
        (step e2 t2 (step e1 t1 m)).notifications =
          m.notifications ++ [(t1, (step e1 t1 m).state)]) := by
  refine ⟨?_, ?_, ?_, ?_, ?_⟩
  · intro tr
    exact (runTrace_inv tr initManager initManager_inv).1
  · intro e now m h
    exact (step_in_window e now m h).1
  · intro e now t2 m
    exact step_state_ignores_debounce e now t2 m
  · intro e now m hc hout
    exact (step_notifies e now m hc hout).1
  · intro m e1 e2 t1 t2 h1 hout hwin
    obtain ⟨ha, hb⟩ := step_notifies e1 t1 m h1 hout
    have hsup := step_in_window e2 t2 (step e1 t1 m) (by rw [hb]; exact hwin)
    rw [hsup.1, ha]

/-- C8 witness: two BLE updates a quarter second apart from the fresh
manager dispatch exactly one snapshot, timed at the first update and
carrying the state after the first update. -/
theorem c8_debounced_dispatch_witness :
    (step (Event.updateFromAirpods readingB) (mkRat 5 4)
        (step (Event.updateFromAirpods readingA) 1 initManager)).notifications =
      initManager.notifications ++
        [(1, (step (Event.updateFromAirpods readingA) 1 initManager).state)] :=
  c8_debounced_dispatch.2.2.2.2 initManager (Event.updateFromAirpods readingA)
    (Event.updateFromAirpods readingB) 1 (mkRat 5 4) trivial (by decide) (by decide)

/-- C8 counterexample. First burst: two BLE updates within 500 ms give
exactly one notification, but it carries the state after the first
update (model label A), not the latest held state (model label B), so
the dispatched snapshot is not the latest state. Second trace: with a
fresh BLE reading held, classic-disconnected clears the classic name, a
user-visible mutation, 8 seconds after the last dispatch, far outside
the debounce window, yet dispatches nothing because the source returns
before its notify call. -/
theorem c8_latest_state_counterexample :
    (runTrace [(1, Event.updateFromAirpods readingA),
        (mkRat 5 4, Event.updateFromAirpods readingB)] initManager).notifications.length = 1 ∧
    (runTrace [(1, Event.updateFromAirpods readingA),
        (mkRat 5 4, Event.updateFromAirpods readingB)]
        initManager).notifications.map (fun p => p.2.airpods.map AirPodsData.model) =
      [some "A"] ∧
    (runTrace [(1, Event.updateFromAirpods readingA),
        (mkRat 5 4, Event.updateFromAirpods readingB)]
        initManager).state.airpods.map AirPodsData.model = some "B" ∧
    (runTrace [(1, Event.markConnectedClassic "N"),
        (2, Event.updateFromAirpods readingA)]
        initManager).state.classic_device_name = some "N" ∧
    DEBOUNCE_INTERVAL ≤
      qsub 10 (runTrace [(1, Event.markConnectedClassic "N"),
        (2, Event.updateFromAirpods readingA)] initManager).last_notify_time ∧
    (step Event.markClassicDisconnected 10
        (runTrace [(1, Event.markConnectedClassic "N"),
          (2, Event.updateFromAirpods readingA)]
          initManager)).state.classic_device_name = none ∧
    (step Event.markClassicDisconnected 10
        (runTrace [(1, Event.markConnectedClassic "N"),
          (2, Event.updateFromAirpods readingA)] initManager)).notifications =
      (runTrace [(1, Event.markConnectedClassic "N"),
        (2, Event.updateFromAirpods readingA)] initManager).notifications := by
  decide

end ViewPods
